import Mathlib

/-!
Shallow embedding of the password-generation TCP client/server
(`TCP_client.c`, `TCP_server.c`, `password.c`, `protocol.h`).

C strings are modelled as `List Char` (the characters strictly before the
terminating NUL).  The C library PRNG `rand()` is modelled as an arbitrary
stream `r : Nat → Nat` together with a cursor `k : Nat`: the `i`-th call of
`rand()` returns `r i`, and every function that consumes random draws
returns the advanced cursor.  `int` values that are provably small stay
`Nat`/`Int` without wrap-around, matching the ranges the program uses.
-/

namespace PwdGen

/-- `MIN_PASSWORD_LENGTH` from the server's `protocol.h`. -/
def MIN_PASSWORD_LENGTH : Nat := 6

/-- `MAX_PASSWORD_LENGTH` from `protocol.h`. -/
def MAX_PASSWORD_LENGTH : Nat := 32

/-- The `PasswordType` enum of `password.h`. -/
inductive PasswordType where
  | NUMERIC
  | ALPHA
  | MIXED
  | SECURE
deriving DecidableEq

/-- The `PasswordRequest` struct of `protocol.h`: a selector character and
the length field as raw text. -/
structure PasswordRequest where
  type : Char
  length : List Char
deriving DecidableEq

/-- The `PasswordResponse` struct of `protocol.h`. -/
structure PasswordResponse where
  keep_going : Bool
  password : List Char
  request_error : Bool
  error_msg : List Char
deriving DecidableEq

/-- ASCII `tolower` from `<ctype.h>` in the "C" locale: uppercase basic
latin letters map down by 32, everything else is unchanged. -/
def tolower (c : Char) : Char :=
  if 65 ≤ c.toNat ∧ c.toNat ≤ 90 then Char.ofNat (c.toNat + 32) else c

/-- `keep_generating` from `password.c`:
`tolower(type) != tolower(type_for_ending)`. -/
def keep_generating (type type_for_ending : Char) : Bool :=
  tolower type != tolower type_for_ending

/-- `strchr(s, c) != NULL` on a NUL-terminated string: scans the characters
in order and, like the C function, also reports a hit when `c` is the NUL
terminator itself. -/
def strchr_hits : List Char → Char → Bool
  | [], c => c == Char.ofNat 0
  | a :: s, c => if a == c then true else strchr_hits s c

/-- `control_type` from `password.c`: `strchr(allowed_type, type) != NULL`. -/
def control_type (allowed_type : List Char) (type : Char) : Bool :=
  strchr_hits allowed_type type

/-- `isdigit` from `<ctype.h>`: the decimal digits `'0'..'9'`. -/
def c_isdigit (c : Char) : Bool :=
  decide (48 ≤ c.toNat) && decide (c.toNat ≤ 57)

/-- The digit-scanning loop at the top of `control_length`: every character
before the terminator must satisfy `isdigit`, otherwise return false. -/
def all_digits : List Char → Bool
  | [] => true
  | c :: s => if c_isdigit c then all_digits s else false

/-- C `atoi`, restricted to the all-digit strings on which this program
calls it (inside `control_length` after the digit scan, and on the server
after `control_length` has passed): the usual left-to-right decimal
accumulation. -/
def atoiLoop : List Char → Nat → Nat
  | [], acc => acc
  | c :: s, acc => atoiLoop s (acc * 10 + (c.toNat - 48))

/-- `atoi(length)` on an all-digit string. -/
def atoi (s : List Char) : Nat :=
  atoiLoop s 0

/-- `control_length` from `password.c`: reject any non-digit character,
then convert with `atoi` and test `min_length <= n && n <= max_length`. -/
def control_length (length : List Char) (min_length max_length : Nat) : Bool :=
  if all_digits length then
    decide (min_length ≤ atoi length) && decide (atoi length ≤ max_length)
  else false

/-- `generate_numeric` from `password.c`: `password[i] = '0' + rand() % 10`
for each position.  Returns the characters written before the terminator
and the advanced PRNG cursor. -/
def generate_numeric (r : Nat → Nat) : Nat → Nat → List Char × Nat
  | k, 0 => ([], k)
  | k, Nat.succ n =>
    let c := Char.ofNat (48 + r k % 10)
    let rest := generate_numeric r (k + 1) n
    (c :: rest.1, rest.2)

/-- `generate_alpha` from `password.c`: `password[i] = 'a' + rand() % 26`. -/
def generate_alpha (r : Nat → Nat) : Nat → Nat → List Char × Nat
  | k, 0 => ([], k)
  | k, Nat.succ n =>
    let c := Char.ofNat (97 + r k % 26)
    let rest := generate_alpha r (k + 1) n
    (c :: rest.1, rest.2)

/-- `generate_mixed` from `password.c`:
`(rand() % 2) ? 'a' + rand() % 26 : '0' + rand() % 10` — two PRNG draws
per position, the first choosing the branch. -/
def generate_mixed (r : Nat → Nat) : Nat → Nat → List Char × Nat
  | k, 0 => ([], k)
  | k, Nat.succ n =>
    let c := if r k % 2 ≠ 0 then Char.ofNat (97 + r (k + 1) % 26)
             else Char.ofNat (48 + r (k + 1) % 10)
    let rest := generate_mixed r (k + 2) n
    (c :: rest.1, rest.2)

/-- The `charset[]` array of `generate_secure` (its characters before the
terminator, so `secure_charset.length = sizeof(charset) - 1`). -/
def secure_charset : List Char :=
  ("abcdefghijklmnopqrstuvwxyzABCDEFGHIJKLMNOPQRSTUVWXYZ0123456789!@#$%^&*()").toList

/-- `generate_secure` from `password.c`:
`password[i] = charset[rand() % (sizeof(charset) - 1)]`. -/
def generate_secure (r : Nat → Nat) : Nat → Nat → List Char × Nat
  | k, 0 => ([], k)
  | k, Nat.succ n =>
    let c := secure_charset.getD (r k % secure_charset.length) (Char.ofNat 0)
    let rest := generate_secure r (k + 1) n
    (c :: rest.1, rest.2)

/-- `generate_password` from `password.c`: dispatch on the `PasswordType`. -/
def generate_password (r : Nat → Nat) (k : Nat) (type : PasswordType) (length : Nat) :
    List Char × Nat :=
  match type with
  | .NUMERIC => generate_numeric r k length
  | .ALPHA => generate_alpha r k length
  | .MIXED => generate_mixed r k length
  | .SECURE => generate_secure r k length

/-- The allowed-selector string `"nams"` passed to `control_type` by the
server (`TCP_server.c` line 178). -/
def allowed_types : List Char := ['n', 'a', 'm', 's']

/-- The server's invalid-length message (`TCP_server.c` line 206). -/
def invalid_length_msg : List Char :=
  ("The length for the password is not valid.\n").toList

/-- The server's invalid-type message (`TCP_server.c` line 213). -/
def invalid_type_msg : List Char :=
  ("The type inserted is not valid.\n").toList

/-- The server's `switch (tolower(password_msg.type))` choosing the
`PasswordType` (`TCP_server.c` lines 183–196).  The switch has no default
branch; a selector matching no case leaves `password_type` uninitialized,
modelled as `none`. -/
def password_type_of (c : Char) : Option PasswordType :=
  if c = 'n' then some .NUMERIC
  else if c = 'a' then some .ALPHA
  else if c = 'm' then some .MIXED
  else if c = 's' then some .SECURE
  else none

/-- One iteration of the server's request-processing loop
(`TCP_server.c` lines 174–222): given the received `PasswordRequest` and
the PRNG stream/cursor, produce the `PasswordResponse` the server builds
and the advanced cursor.  `none` marks the undefined-behavior path where
the selector passes `control_type` but matches no case of the switch
(only the NUL selector, which `strchr` finds at the terminator). -/
def serverStep (req : PasswordRequest) (r : Nat → Nat) (k : Nat) :
    Option (PasswordResponse × Nat) :=
  let keep := keep_generating req.type 'q'
  if keep then
    if control_type allowed_types req.type then
      if control_length req.length MIN_PASSWORD_LENGTH MAX_PASSWORD_LENGTH then
        let numerical_length := atoi req.length
        match password_type_of (tolower req.type) with
        | none => none
        | some pt =>
          let g := generate_password r k pt numerical_length
          some ({ keep_going := true, password := g.1,
                  request_error := false, error_msg := [] }, g.2)
      else
        some ({ keep_going := true, password := [],
                request_error := true, error_msg := invalid_length_msg }, k)
    else
      some ({ keep_going := true, password := [],
              request_error := true, error_msg := invalid_type_msg }, k)
  else
    some ({ keep_going := false, password := [],
            request_error := false, error_msg := [] }, k)

/-- What the client does with one parsed input line
(`TCP_client.c` lines 123–135): either re-prompt locally (the `continue`
branch, nothing is sent and the loop runs again) or send a
`PasswordRequest` to the server. -/
inductive ClientAction where
  | reprompt
  | sendRequest (req : PasswordRequest)
deriving DecidableEq

/-- The default length text `"8"` substituted by the client when only the
selector was typed (`TCP_client.c` line 129). -/
def default_length_text : List Char := ['8']

/-- The client's branch on the `sscanf` result `arguments`
(`TCP_client.c` lines 123–135): one argument substitutes the default
length and sends; any count other than 1 or 2 re-prompts locally;
two arguments send the parsed selector and length text unchanged. -/
def client_handle_input (arguments : Int) (type : Char) (length : List Char) :
    ClientAction :=
  if arguments = 1 then .sendRequest ⟨type, default_length_text⟩
  else if arguments ≠ 2 then .reprompt
  else .sendRequest ⟨type, length⟩

/-- Outcome of one `recv` of a `PasswordRequest` on the server:
either a full record or `recv(...) <= 0` (error or peer disconnect). -/
inductive RecvOutcome where
  | ok (req : PasswordRequest)
  | fail
deriving DecidableEq

/-- Outcome of one `send`: either the full record size was transferred or
a short/failed send. -/
inductive SendOutcome where
  | ok
  | fail
deriving DecidableEq

/-- The transport events of one iteration of the server's inner loop:
what its `recv` returns and how the following `send` goes. -/
structure SessionIteration where
  recv : RecvOutcome
  send : SendOutcome
deriving DecidableEq

/-- How the server session code leaves its inner loop:
`closedNormally` is the `while` condition turning false after the sentinel
(followed by `closesocket` and the next `accept`); `fatalExit` is any
`return -1` path (failed `recv`, short `send`), which also closes the
socket but terminates `main` itself. -/
inductive SessionEnd where
  | closedNormally
  | fatalExit
deriving DecidableEq

/-- The server's inner do/while loop (`TCP_server.c` lines 162–235) run
against a finite trace of transport events, threading the PRNG cursor.
`none` when the trace is exhausted with the loop still running, or on the
undefined-behavior path of `serverStep`. -/
def runSession (r : Nat → Nat) : Nat → List SessionIteration → Option (SessionEnd × Nat)
  | _, [] => none
  | k, it :: rest =>
    match it.recv with
    | .fail => some (.fatalExit, k)
    | .ok req =>
      match serverStep req r k with
      | none => none
      | some (resp, k') =>
        match it.send with
        | .fail => some (.fatalExit, k')
        | .ok =>
          if resp.keep_going then runSession r k' rest
          else some (.closedNormally, k')

/-- The transport events of one accepted connection: how the menu `send`
goes, then the inner-loop iterations. -/
structure SessionTrace where
  menu_send : SendOutcome
  iters : List SessionIteration
deriving DecidableEq

/-- How the server's outer `while (1)` accept loop ends relative to a
finite trace of connections: still sitting in `accept` waiting for the
next client, or `main` returned (process exited). -/
inductive ServerEnd where
  | accepting
  | exited
deriving DecidableEq

/-- The server's outer accept loop (`TCP_server.c` lines 116–240) over a
finite list of connection traces.  Returns how many sessions were closed
normally and whether the process is still accepting or has exited:
a failed menu send or a fatal session fault executes `return -1`,
so no later connection is ever accepted. -/
def runServer (r : Nat → Nat) : Nat → List SessionTrace → Option (Nat × ServerEnd)
  | _, [] => some (0, .accepting)
  | k, s :: rest =>
    match s.menu_send with
    | .fail => some (0, .exited)
    | .ok =>
      match runSession r k s.iters with
      | none => none
      | some (.fatalExit, _) => some (0, .exited)
      | some (.closedNormally, k') =>
        match runServer r k' rest with
        | none => none
        | some (m, e) => some (m + 1, e)

/-- Alphabet of the NUMERIC class as the spec describes it: digits 0–9. -/
def numeric_alphabet : List Char := ("0123456789").toList

/-- Alphabet of the ALPHA class as the spec describes it: lowercase a–z. -/
def alpha_alphabet : List Char := ("abcdefghijklmnopqrstuvwxyz").toList

/-- Alphabet of the MIXED class as the spec describes it: lowercase
letters and digits. -/
def mixed_alphabet : List Char := alpha_alphabet ++ numeric_alphabet

/-- The per-class alphabet of the spec's testable property §8
(SECURE's alphabet is the `charset[]` of the source). -/
def class_alphabet : PasswordType → List Char
  | .NUMERIC => numeric_alphabet
  | .ALPHA => alpha_alphabet
  | .MIXED => mixed_alphabet
  | .SECURE => secure_charset

/-- The mathematical decimal value of a digit string, written from the
spec's words "the parsed integer": standard left-to-right fold. -/
def decimal_value (s : List Char) : Nat :=
  s.foldl (fun a c => a * 10 + (c.toNat - 48)) 0

/-! ### Helper lemmas -/

theorem toNat_char_ofNat {n : Nat} (h : n < 55296) : (Char.ofNat n).toNat = n := by
  have hv : n.isValidChar := Or.inl h
  rw [Char.ofNat, dif_pos hv]
  rfl

theorem char_eq_of_toNat_eq {a b : Char} (h : a.toNat = b.toNat) : a = b := by
  apply Char.eq_of_val_eq
  apply UInt32.eq_of_toBitVec_eq
  apply BitVec.eq_of_toNat_eq
  exact h

theorem tolower_eq_q_iff (c : Char) : tolower c = 'q' ↔ (c = 'q' ∨ c = 'Q') := by
  unfold tolower
  by_cases h : 65 ≤ c.toNat ∧ c.toNat ≤ 90
  · rw [if_pos h]
    constructor
    · intro he
      have h1 : (Char.ofNat (c.toNat + 32)).toNat = c.toNat + 32 :=
        toNat_char_ofNat (by omega)
      have h2 : c.toNat + 32 = 113 := by
        rw [← h1, he]
        rfl
      have h3 : Char.toNat 'Q' = 81 := by decide
      right
      exact char_eq_of_toNat_eq (by omega)
    · rintro (rfl | rfl)
      · simp at h
      · decide
  · rw [if_neg h]
    constructor
    · intro he
      exact Or.inl he
    · rintro (rfl | rfl)
      · rfl
      · exact absurd (by decide) h

theorem char_le_iff {a b : Char} : a ≤ b ↔ a.toNat ≤ b.toNat := Iff.rfl

def is_decimal_digit (c : Char) : Prop := '0' ≤ c ∧ c ≤ '9'

instance (c : Char) : Decidable (is_decimal_digit c) := by
  unfold is_decimal_digit
  infer_instance

theorem c_isdigit_iff (c : Char) : c_isdigit c = true ↔ is_decimal_digit c := by
  unfold c_isdigit is_decimal_digit
  rw [char_le_iff, char_le_iff]
  simp

theorem all_digits_iff (s : List Char) :
    all_digits s = true ↔ ∀ c ∈ s, is_decimal_digit c := by
  induction s with
  | nil => simp [all_digits]
  | cons c s ih =>
    by_cases h : c_isdigit c
    · simp [all_digits, h, ih, (c_isdigit_iff c).mp h]
    · simp only [all_digits, if_neg h]
      simp only [Bool.false_eq_true, false_iff]
      intro hall
      exact h ((c_isdigit_iff c).mpr (hall c (List.mem_cons_self c s)))

theorem atoiLoop_eq_foldl (s : List Char) (acc : Nat) :
    atoiLoop s acc = s.foldl (fun a c => a * 10 + (c.toNat - 48)) acc := by
  induction s generalizing acc with
  | nil => rfl
  | cons c s ih => simp [atoiLoop, List.foldl, ih]

theorem atoi_eq_decimal_value (s : List Char) : atoi s = decimal_value s :=
  atoiLoop_eq_foldl s 0

theorem control_length_iff (s : List Char) (lo hi : Nat) :
    control_length s lo hi = true ↔
      (∀ c ∈ s, is_decimal_digit c) ∧ lo ≤ decimal_value s ∧ decimal_value s ≤ hi := by
  unfold control_length
  by_cases h : all_digits s
  · rw [if_pos h]
    simp only [Bool.and_eq_true, decide_eq_true_eq, atoi_eq_decimal_value]
    have hd := (all_digits_iff s).mp h
    constructor
    · intro hr
      exact ⟨hd, hr.1, hr.2⟩
    · intro hr
      exact ⟨hr.2.1, hr.2.2⟩
  · rw [if_neg h]
    simp only [Bool.false_eq_true, false_iff]
    intro hc
    exact h ((all_digits_iff s).mpr hc.1)

theorem keep_generating_q_iff (c : Char) :
    keep_generating c 'q' = false ↔ (c = 'q' ∨ c = 'Q') := by
  unfold keep_generating
  have hq : tolower 'q' = 'q' := rfl
  rw [hq]
  rw [bne_eq_false_iff_eq]
  exact tolower_eq_q_iff c

theorem generate_numeric_length (r : Nat → Nat) (k n : Nat) :
    (generate_numeric r k n).1.length = n := by
  induction n generalizing k with
  | zero => rfl
  | succ n ih => simp [generate_numeric, ih]

theorem mem_numeric_alphabet (m : Nat) (h : m < 10) :
    Char.ofNat (48 + m) ∈ numeric_alphabet := by
  interval_cases m <;> decide

theorem generate_numeric_mem (r : Nat → Nat) (k n : Nat) :
    ∀ c ∈ (generate_numeric r k n).1, c ∈ numeric_alphabet := by
  induction n generalizing k with
  | zero => intro c hc; simp [generate_numeric] at hc
  | succ n ih =>
    intro c hc
    simp only [generate_numeric, List.mem_cons] at hc
    rcases hc with rfl | hc
    · exact mem_numeric_alphabet _ (Nat.mod_lt _ (by omega))
    · exact ih (k + 1) c hc

theorem generate_alpha_length (r : Nat → Nat) (k n : Nat) :
    (generate_alpha r k n).1.length = n := by
  induction n generalizing k with
  | zero => rfl
  | succ n ih => simp [generate_alpha, ih]

theorem mem_alpha_alphabet (m : Nat) (h : m < 26) :
    Char.ofNat (97 + m) ∈ alpha_alphabet := by
  interval_cases m <;> decide

theorem generate_alpha_mem (r : Nat → Nat) (k n : Nat) :
    ∀ c ∈ (generate_alpha r k n).1, c ∈ alpha_alphabet := by
  induction n generalizing k with
  | zero => intro c hc; simp [generate_alpha] at hc
  | succ n ih =>
    intro c hc
    simp only [generate_alpha, List.mem_cons] at hc
    rcases hc with rfl | hc
    · exact mem_alpha_alphabet _ (Nat.mod_lt _ (by omega))
    · exact ih (k + 1) c hc

theorem generate_mixed_length (r : Nat → Nat) (k n : Nat) :
    (generate_mixed r k n).1.length = n := by
  induction n generalizing k with
  | zero => rfl
  | succ n ih => simp [generate_mixed, ih]

theorem generate_mixed_mem (r : Nat → Nat) (k n : Nat) :
    ∀ c ∈ (generate_mixed r k n).1, c ∈ mixed_alphabet := by
  induction n generalizing k with
  | zero => intro c hc; simp [generate_mixed] at hc
  | succ n ih =>
    intro c hc
    simp only [generate_mixed, List.mem_cons] at hc
    rcases hc with rfl | hc
    · unfold mixed_alphabet
      by_cases hb : r k % 2 ≠ 0
      · rw [if_pos hb]
        exact List.mem_append_left _ (mem_alpha_alphabet _ (Nat.mod_lt _ (by omega)))
      · rw [if_neg hb]
        exact List.mem_append_right _ (mem_numeric_alphabet _ (Nat.mod_lt _ (by omega)))
    · exact ih (k + 2) c hc

theorem generate_secure_length (r : Nat → Nat) (k n : Nat) :
    (generate_secure r k n).1.length = n := by
  induction n generalizing k with
  | zero => rfl
  | succ n ih => simp [generate_secure, ih]

theorem generate_secure_mem (r : Nat → Nat) (k n : Nat) :
    ∀ c ∈ (generate_secure r k n).1, c ∈ secure_charset := by
  induction n generalizing k with
  | zero => intro c hc; simp [generate_secure] at hc
  | succ n ih =>
    intro c hc
    simp only [generate_secure, List.mem_cons] at hc
    rcases hc with rfl | hc
    · have h72 : secure_charset.length = 72 := by decide
      have hlen : r k % secure_charset.length < secure_charset.length := by
        rw [h72]
        omega
      rw [List.getD_eq_getElem?_getD, List.getElem?_eq_getElem hlen]
      simp only [Option.getD_some]
      exact List.getElem_mem hlen
    · exact ih (k + 1) c hc

theorem generate_password_length (r : Nat → Nat) (k : Nat) (pt : PasswordType) (n : Nat) :
    (generate_password r k pt n).1.length = n := by
  cases pt
  · exact generate_numeric_length r k n
  · exact generate_alpha_length r k n
  · exact generate_mixed_length r k n
  · exact generate_secure_length r k n

theorem generate_password_mem (r : Nat → Nat) (k : Nat) (pt : PasswordType) (n : Nat) :
    ∀ c ∈ (generate_password r k pt n).1, c ∈ class_alphabet pt := by
  cases pt
  · exact generate_numeric_mem r k n
  · exact generate_alpha_mem r k n
  · exact generate_mixed_mem r k n
  · exact generate_secure_mem r k n

theorem serverStep_sentinel {req : PasswordRequest} (r : Nat → Nat) (k : Nat)
    (hk : keep_generating req.type 'q' = false) :
    serverStep req r k =
      some ({ keep_going := false, password := [],
              request_error := false, error_msg := [] }, k) := by
  unfold serverStep
  rw [if_neg (by rw [hk]; exact Bool.false_ne_true)]

theorem serverStep_invalid_type {req : PasswordRequest} (r : Nat → Nat) (k : Nat)
    (hk : keep_generating req.type 'q' = true)
    (ht : control_type allowed_types req.type = false) :
    serverStep req r k =
      some ({ keep_going := true, password := [],
              request_error := true, error_msg := invalid_type_msg }, k) := by
  unfold serverStep
  rw [if_pos hk, if_neg (by rw [ht]; exact Bool.false_ne_true)]

theorem serverStep_invalid_length {req : PasswordRequest} (r : Nat → Nat) (k : Nat)
    (hk : keep_generating req.type 'q' = true)
    (ht : control_type allowed_types req.type = true)
    (hl : control_length req.length MIN_PASSWORD_LENGTH MAX_PASSWORD_LENGTH = false) :
    serverStep req r k =
      some ({ keep_going := true, password := [],
              request_error := true, error_msg := invalid_length_msg }, k) := by
  unfold serverStep
  rw [if_pos hk, if_pos ht, if_neg (by rw [hl]; exact Bool.false_ne_true)]

theorem serverStep_success {req : PasswordRequest} (r : Nat → Nat) (k : Nat) {pt : PasswordType}
    (hk : keep_generating req.type 'q' = true)
    (ht : control_type allowed_types req.type = true)
    (hl : control_length req.length MIN_PASSWORD_LENGTH MAX_PASSWORD_LENGTH = true)
    (hpt : password_type_of (tolower req.type) = some pt) :
    serverStep req r k =
      some ({ keep_going := true,
              password := (generate_password r k pt (atoi req.length)).1,
              request_error := false, error_msg := [] },
            (generate_password r k pt (atoi req.length)).2) := by
  unfold serverStep
  rw [if_pos hk, if_pos ht, if_pos hl, hpt]

theorem serverStep_keep {req : PasswordRequest} {r : Nat → Nat} {k : Nat}
    {out : PasswordResponse × Nat} (h : serverStep req r k = some out) :
    out.1.keep_going = keep_generating req.type 'q' := by
  by_cases hk : keep_generating req.type 'q' = true
  · by_cases ht : control_type allowed_types req.type = true
    · by_cases hl : control_length req.length MIN_PASSWORD_LENGTH MAX_PASSWORD_LENGTH = true
      · cases hpt : password_type_of (tolower req.type) with
        | none =>
          unfold serverStep at h
          rw [if_pos hk, if_pos ht, if_pos hl, hpt] at h
          exact absurd h (by simp)
        | some pt =>
          rw [serverStep_success r k hk ht hl hpt] at h
          simp only [Option.some.injEq] at h
          rw [← h, hk]
      · rw [serverStep_invalid_length r k hk ht ((Bool.not_eq_true _).mp hl)] at h
        simp only [Option.some.injEq] at h
        rw [← h, hk]
    · rw [serverStep_invalid_type r k hk ((Bool.not_eq_true _).mp ht)] at h
      simp only [Option.some.injEq] at h
      rw [← h, hk]
  · rw [serverStep_sentinel r k ((Bool.not_eq_true _).mp hk)] at h
    simp only [Option.some.injEq] at h
    rw [← h, (Bool.not_eq_true _).mp hk]

theorem success_password_ne_nil (r : Nat → Nat) (k : Nat) (pt : PasswordType)
    {s : List Char}
    (hl : control_length s MIN_PASSWORD_LENGTH MAX_PASSWORD_LENGTH = true) :
    (generate_password r k pt (atoi s)).1 ≠ [] := by
  have hlen := generate_password_length r k pt (atoi s)
  have h6 : MIN_PASSWORD_LENGTH ≤ atoi s := by
    rw [atoi_eq_decimal_value]
    exact ((control_length_iff s MIN_PASSWORD_LENGTH MAX_PASSWORD_LENGTH).mp hl).2.1
  intro hnil
  rw [hnil] at hlen
  simp only [List.length_nil] at hlen
  unfold MIN_PASSWORD_LENGTH at h6
  omega

theorem serverStep_shape {req : PasswordRequest} {r : Nat → Nat} {k : Nat}
    {out : PasswordResponse × Nat} (h : serverStep req r k = some out) :
    (out.1.keep_going = true →
       (out.1.request_error = false ∧ out.1.password ≠ [] ∧ out.1.error_msg = []) ∨
       (out.1.request_error = true ∧ out.1.password = [] ∧ out.1.error_msg ≠ [])) ∧
    (out.1.keep_going = false →
       out.1.password = [] ∧ out.1.error_msg = [] ∧ out.1.request_error = false) := by
  by_cases hk : keep_generating req.type 'q' = true
  · by_cases ht : control_type allowed_types req.type = true
    · by_cases hl : control_length req.length MIN_PASSWORD_LENGTH MAX_PASSWORD_LENGTH = true
      · cases hpt : password_type_of (tolower req.type) with
        | none =>
          unfold serverStep at h
          rw [if_pos hk, if_pos ht, if_pos hl, hpt] at h
          exact absurd h (by simp)
        | some pt =>
          rw [serverStep_success r k hk ht hl hpt] at h
          simp only [Option.some.injEq] at h
          rw [← h]
          constructor
          · intro _
            left
            exact ⟨rfl, success_password_ne_nil r k pt hl, rfl⟩
          · intro hfalse
            simp at hfalse
      · rw [serverStep_invalid_length r k hk ht ((Bool.not_eq_true _).mp hl)] at h
        simp only [Option.some.injEq] at h
        rw [← h]
        constructor
        · intro _
          right
          refine ⟨rfl, rfl, ?_⟩
          show invalid_length_msg ≠ []
          decide
        · intro hfalse
          simp at hfalse
    · rw [serverStep_invalid_type r k hk ((Bool.not_eq_true _).mp ht)] at h
      simp only [Option.some.injEq] at h
      rw [← h]
      constructor
      · intro _
        right
        refine ⟨rfl, rfl, ?_⟩
        show invalid_type_msg ≠ []
        decide
      · intro hfalse
        simp at hfalse
  · rw [serverStep_sentinel r k ((Bool.not_eq_true _).mp hk)] at h
    simp only [Option.some.injEq] at h
    rw [← h]
    constructor
    · intro htrue
      simp at htrue
    · intro _
      exact ⟨rfl, rfl, rfl⟩

/-! ### Claims -/

theorem control_type_nams_iff (c : Char) :
    control_type allowed_types c = true ↔
      (c = 'n' ∨ c = 'a' ∨ c = 'm' ∨ c = 's' ∨ c = Char.ofNat 0) := by
  simp only [control_type, allowed_types, strchr_hits, beq_iff_eq]
  split_ifs with h1 h2 h3 h4
  · cases h1
    simp
  · cases h2
    simp
  · cases h3
    simp
  · cases h4
    simp
  · rw [beq_iff_eq]
    constructor
    · intro h
      exact Or.inr (Or.inr (Or.inr (Or.inr h)))
    · rintro (rfl | rfl | rfl | rfl | h)
      · exact absurd rfl h1
      · exact absurd rfl h2
      · exact absurd rfl h3
      · exact absurd rfl h4
      · exact h

/-- C1: the spec claims the class check is case-insensitive; the code's
`control_type` uses a plain `strchr` over `"nams"`, so the uppercase
selector `'N'` fails the class check and the request is rejected with the
InvalidType message. -/
theorem C1_counterexample :
    control_type allowed_types 'N' = false ∧
    serverStep { type := 'N', length := ['8'] } (fun _ => 0) 0 =
      some ({ keep_going := true, password := [], request_error := true,
              error_msg := invalid_type_msg }, 0) := by
  decide

/-- C1 (amended): the class check is case-sensitive.  It accepts exactly
the lowercase selectors `n`, `a`, `m`, `s` (plus the NUL character, which
`strchr` finds at the string terminator); each uppercase form `N`, `A`,
`M`, `S` fails the check and the request is rejected with the InvalidType
message, for every length text. -/
theorem C1_amended :
    (∀ c : Char, control_type allowed_types c = true ↔
       (c = 'n' ∨ c = 'a' ∨ c = 'm' ∨ c = 's' ∨ c = Char.ofNat 0)) ∧
    (∀ c : Char, (c = 'N' ∨ c = 'A' ∨ c = 'M' ∨ c = 'S') →
       ∀ (l : List Char) (r : Nat → Nat) (k : Nat),
         serverStep { type := c, length := l } r k =
           some ({ keep_going := true, password := [], request_error := true,
                   error_msg := invalid_type_msg }, k)) := by
  constructor
  · exact control_type_nams_iff
  · intro c hc l r k
    rcases hc with rfl | rfl | rfl | rfl
    · exact serverStep_invalid_type r k (show keep_generating 'N' 'q' = true by decide)
        (show control_type allowed_types 'N' = false by decide)
    · exact serverStep_invalid_type r k (show keep_generating 'A' 'q' = true by decide)
        (show control_type allowed_types 'A' = false by decide)
    · exact serverStep_invalid_type r k (show keep_generating 'M' 'q' = true by decide)
        (show control_type allowed_types 'M' = false by decide)
    · exact serverStep_invalid_type r k (show keep_generating 'S' 'q' = true by decide)
        (show control_type allowed_types 'S' = false by decide)

/-- C1 witness: the amended theorem applied at the selector `'N'`. -/
theorem C1_witness :
    serverStep { type := 'N', length := ['9', '9'] } (fun _ => 7) 3 =
      some ({ keep_going := true, password := [], request_error := true,
              error_msg := invalid_type_msg }, 3) :=
  C1_amended.2 'N' (Or.inl rfl) ['9', '9'] (fun _ => 7) 3

/-- C2: the spec claims a transport fault is fatal only to that session
and the server returns to accepting the next connection.  In the code
every such fault executes `return -1`, terminating the whole process: in
a two-connection trace whose first session has a failed `recv`, the
second (perfectly well-behaved) client is never served, while the same
second trace alone would be served to completion. -/
theorem C2_counterexample :
    runServer (fun _ => 0) 0
        [{ menu_send := SendOutcome.ok,
           iters := [{ recv := RecvOutcome.fail, send := SendOutcome.ok }] },
         { menu_send := SendOutcome.ok,
           iters := [{ recv := RecvOutcome.ok { type := 'q', length := [] },
                       send := SendOutcome.ok }] }] =
      some (0, ServerEnd.exited) ∧
    runServer (fun _ => 0) 0
        [{ menu_send := SendOutcome.ok,
           iters := [{ recv := RecvOutcome.ok { type := 'q', length := [] },
                       send := SendOutcome.ok }] }] =
      some (1, ServerEnd.accepting) := by
  decide

/-- C2 (amended): a transport fault on a client connection (failed `recv`
or short `send`) closes that connection but then exits the whole server
process, so no further connection is accepted; only a session that ends
normally via the sentinel returns the server to accepting, and then the
remaining connections are served as if the finished one had not
happened. -/
theorem C2_amended (r : Nat → Nat) (k k' : Nat) (t : SessionTrace)
    (rest : List SessionTrace) (hm : t.menu_send = SendOutcome.ok) :
    (runSession r k t.iters = some (SessionEnd.fatalExit, k') →
       runServer r k (t :: rest) = some (0, ServerEnd.exited)) ∧
    (∀ res : Nat × ServerEnd,
       runSession r k t.iters = some (SessionEnd.closedNormally, k') →
       runServer r k' rest = some res →
       runServer r k (t :: rest) = some (res.1 + 1, res.2)) := by
  constructor
  · intro hs
    simp [runServer, hm, hs]
  · intro res hs hrest
    obtain ⟨m, e⟩ := res
    simp [runServer, hm, hs, hrest]

/-- C2 witness: the amended theorem applied to a one-iteration session
whose `recv` fails, in front of one further well-behaved connection. -/
theorem C2_witness :
    runServer (fun _ => 0) 0
        [{ menu_send := SendOutcome.ok,
           iters := [{ recv := RecvOutcome.fail, send := SendOutcome.ok }] },
         { menu_send := SendOutcome.ok,
           iters := [{ recv := RecvOutcome.ok { type := 'q', length := [] },
                       send := SendOutcome.ok }] }] =
      some (0, ServerEnd.exited) :=
  (C2_amended (fun _ => 0) 0 0
      { menu_send := SendOutcome.ok,
        iters := [{ recv := RecvOutcome.fail, send := SendOutcome.ok }] }
      [{ menu_send := SendOutcome.ok,
         iters := [{ recv := RecvOutcome.ok { type := 'q', length := [] },
                     send := SendOutcome.ok }] }] rfl).1 (by decide)

/-- C3: for every length in `[6, 32]` and each of the four classes,
`generate_password` fills the buffer with exactly that many characters
(the C code then writes the NUL terminator at `password[length]`), each
drawn from that class's alphabet. -/
theorem C3_generate_password (r : Nat → Nat) (k : Nat) (pt : PasswordType) (n : Nat)
    (_hmin : MIN_PASSWORD_LENGTH ≤ n) (_hmax : n ≤ MAX_PASSWORD_LENGTH) :
    (generate_password r k pt n).1.length = n ∧
    ∀ c ∈ (generate_password r k pt n).1, c ∈ class_alphabet pt :=
  ⟨generate_password_length r k pt n, generate_password_mem r k pt n⟩

/-- C3 witness: the theorem applied at length 8, class NUMERIC, and the
all-zero PRNG stream (the password it yields is `"00000000"`). -/
theorem C3_witness :
    (generate_password (fun _ => 0) 0 PasswordType.NUMERIC 8).1.length = 8 ∧
    ∀ c ∈ (generate_password (fun _ => 0) 0 PasswordType.NUMERIC 8).1,
      c ∈ class_alphabet PasswordType.NUMERIC :=
  C3_generate_password (fun _ => 0) 0 PasswordType.NUMERIC 8 (by decide) (by decide)

/-- The uppercase letters of the SECURE charset, for stating what the
alphabet consists of. -/
def upper_alphabet : List Char := ("ABCDEFGHIJKLMNOPQRSTUVWXYZ").toList

/-- The ten symbols of the SECURE charset. -/
def secure_symbols : List Char := ("!@#$%^&*()").toList

/-- C4: the spec says the SECURE alphabet has exactly 74 characters; the
`charset[]` in `generate_secure` has 26 + 26 + 10 + 10 = 72. -/
theorem C4_counterexample : ¬ secure_charset.length = 74 := by
  decide

/-- C4 (amended): the alphabet the SECURE class draws each position from
is a fixed set of exactly 72 distinct characters — the lowercase letters,
the uppercase letters, the decimal digits, and the symbols `!@#$%^&*()` —
and every character `generate_secure` produces belongs to it. -/
theorem C4_amended :
    secure_charset = alpha_alphabet ++ upper_alphabet ++ numeric_alphabet ++ secure_symbols ∧
    secure_charset.Nodup ∧
    secure_charset.length = 72 ∧
    ∀ (r : Nat → Nat) (k n : Nat), ∀ c ∈ (generate_secure r k n).1, c ∈ secure_charset :=
  ⟨by decide, by decide, by decide, generate_secure_mem⟩

/-- C4 witness: the amended theorem applied to the one-character SECURE
password drawn by the all-zero PRNG stream (which is `"a"`). -/
theorem C4_witness : 'a' ∈ secure_charset :=
  C4_amended.2.2.2 (fun _ => 0) 0 1 'a' (by decide)

/-- C5: `control_length(lengthText, 6, 32)` succeeds exactly when the text
is made of decimal digits only and its parsed value lies in `[6, 32]`
(the empty string parses to 0 and fails); `"6"` and `"32"` are accepted,
`"5"` and `"33"` rejected. -/
theorem C5_control_length :
    (∀ s : List Char,
       control_length s 6 32 = true ↔
         (∀ c ∈ s, is_decimal_digit c) ∧ 6 ≤ decimal_value s ∧ decimal_value s ≤ 32) ∧
    control_length ['6'] 6 32 = true ∧
    control_length ['3', '2'] 6 32 = true ∧
    control_length ['5'] 6 32 = false ∧
    control_length ['3', '3'] 6 32 = false ∧
    control_length [] 6 32 = false ∧
    control_length ['1', 'x'] 6 32 = false := by
  refine ⟨fun s => control_length_iff s 6 32, ?_, ?_, ?_, ?_, ?_, ?_⟩ <;> decide

/-- C5 witness: the characterization applied at the concrete string `"17"`. -/
theorem C5_witness : control_length ['1', '7'] 6 32 = true :=
  (C5_control_length.1 ['1', '7']).mpr ⟨by decide, by decide, by decide⟩

/-- C6: a type failure short-circuits.  Whenever the selector is not the
sentinel and fails `control_type`, the server's response is the
InvalidType rejection — independent of the length text, which is never
examined — and the InvalidType message differs from the InvalidLength
message. -/
theorem C6_type_error_first (req : PasswordRequest) (r : Nat → Nat) (k : Nat)
    (hk : keep_generating req.type 'q' = true)
    (ht : control_type allowed_types req.type = false) :
    serverStep req r k =
      some ({ keep_going := true, password := [], request_error := true,
              error_msg := invalid_type_msg }, k) ∧
    invalid_type_msg ≠ invalid_length_msg :=
  ⟨serverStep_invalid_type r k hk ht, by decide⟩

/-- C6 witness: the theorem applied to the selector `'x'` together with a
length text that is itself invalid (`"abc"`). -/
theorem C6_witness :
    serverStep { type := 'x', length := ['a', 'b', 'c'] } (fun _ => 0) 0 =
      some ({ keep_going := true, password := [], request_error := true,
              error_msg := invalid_type_msg }, 0) ∧
    invalid_type_msg ≠ invalid_length_msg :=
  C6_type_error_first { type := 'x', length := ['a', 'b', 'c'] } (fun _ => 0) 0
    (by decide) (by decide)

/-- C7: every response the server builds has `keep_going = false` exactly
when the selector is `'q'` or `'Q'`, and a validation rejection
(`request_error = true`) always keeps the session alive. -/
theorem C7_keep_going (req : PasswordRequest) (r : Nat → Nat) (k : Nat)
    (out : PasswordResponse × Nat) (h : serverStep req r k = some out) :
    (out.1.keep_going = false ↔ (req.type = 'q' ∨ req.type = 'Q')) ∧
    (out.1.request_error = true → out.1.keep_going = true) := by
  have hk := serverStep_keep h
  constructor
  · rw [hk]
    exact keep_generating_q_iff req.type
  · intro herr
    cases hb : out.1.keep_going
    · have hshape := (serverStep_shape h).2 hb
      rw [hshape.2.2] at herr
      exact absurd herr (by simp)
    · rfl

/-- C7 witness: the theorem applied to the uppercase sentinel `'Q'`. -/
theorem C7_witness :
    ((false : Bool) = false ↔ ('Q' = 'q' ∨ 'Q' = 'Q')) ∧
    ((false : Bool) = true → (false : Bool) = true) := by
  have h := C7_keep_going { type := 'Q', length := ['8'] } (fun _ => 0) 0
    ({ keep_going := false, password := [], request_error := false, error_msg := [] }, 0)
    (by decide)
  exact h

/-- C8: shape of every response the server constructs: with
`keep_going = true` exactly one of `password`/`error_msg` is non-empty
(`request_error` marking which); with `keep_going = false` both are empty
and `request_error` is false. -/
theorem C8_response_shape (req : PasswordRequest) (r : Nat → Nat) (k : Nat)
    (out : PasswordResponse × Nat) (h : serverStep req r k = some out) :
    (out.1.keep_going = true →
       (out.1.request_error = false ∧ out.1.password ≠ [] ∧ out.1.error_msg = []) ∨
       (out.1.request_error = true ∧ out.1.password = [] ∧ out.1.error_msg ≠ [])) ∧
    (out.1.keep_going = false →
       out.1.password = [] ∧ out.1.error_msg = [] ∧ out.1.request_error = false) :=
  serverStep_shape h

/-- C8 witness: the theorem applied to the invalid-length request
`('n', "99")`. -/
theorem C8_witness :
    ((true : Bool) = true →
       ((true : Bool) = false ∧ ([] : List Char) ≠ [] ∧ invalid_length_msg = []) ∨
       ((true : Bool) = true ∧ ([] : List Char) = [] ∧ invalid_length_msg ≠ [])) ∧
    ((true : Bool) = false →
       ([] : List Char) = [] ∧ invalid_length_msg = [] ∧ (true : Bool) = false) := by
  have h := C8_response_shape { type := 'n', length := ['9', '9'] } (fun _ => 0) 0
    ({ keep_going := true, password := [], request_error := true,
       error_msg := invalid_length_msg }, 0) (by decide)
  exact h

/-- C9: an `sscanf` argument count other than 1 or 2 makes the client
re-prompt locally (the `continue` branch: nothing is sent and the session
loop runs again); exactly one token substitutes the default length `"8"`
and sends; two tokens send the parsed selector and length unchanged. -/
theorem C9_client_input (arguments : Int) (t : Char) (l : List Char)
    (h1 : arguments ≠ 1) (h2 : arguments ≠ 2) :
    client_handle_input arguments t l = ClientAction.reprompt ∧
    client_handle_input 1 t l = ClientAction.sendRequest { type := t, length := ['8'] } ∧
    client_handle_input 2 t l = ClientAction.sendRequest { type := t, length := l } := by
  refine ⟨?_, ?_, ?_⟩
  · unfold client_handle_input
    rw [if_neg h1, if_pos h2]
  · unfold client_handle_input
    rw [if_pos rfl]
    rfl
  · unfold client_handle_input
    rw [if_neg (by decide), if_neg (by simp)]

/-- C9 witness: the theorem applied at argument count 3 (three tokens). -/
theorem C9_witness :
    client_handle_input 3 'n' ['8'] = ClientAction.reprompt ∧
    client_handle_input 1 'n' ['8'] = ClientAction.sendRequest { type := 'n', length := ['8'] } ∧
    client_handle_input 2 'n' ['8'] = ClientAction.sendRequest { type := 'n', length := ['8'] } :=
  C9_client_input 3 'n' ['8'] (by decide) (by decide)

/-- C10: an all-digit length text is accepted by parsed value, not by
digit count: if its decimal value lies in `[6, 32]`, `control_length`
accepts it and the generated password's length is that value (e.g.
`"008"` yields 8 characters, not 3). -/
theorem C10_leading_zeros (s : List Char) (r : Nat → Nat) (k : Nat)
    (hd : ∀ c ∈ s, is_decimal_digit c)
    (h6 : 6 ≤ decimal_value s) (h32 : decimal_value s ≤ 32) :
    control_length s MIN_PASSWORD_LENGTH MAX_PASSWORD_LENGTH = true ∧
    ∃ out : PasswordResponse × Nat,
      serverStep { type := 'n', length := s } r k = some out ∧
      out.1.request_error = false ∧
      out.1.password.length = decimal_value s := by
  have hl : control_length s MIN_PASSWORD_LENGTH MAX_PASSWORD_LENGTH = true :=
    (control_length_iff s MIN_PASSWORD_LENGTH MAX_PASSWORD_LENGTH).mpr ⟨hd, h6, h32⟩
  refine ⟨hl, ?_⟩
  have hstep := @serverStep_success { type := 'n', length := s } r k PasswordType.NUMERIC
    (show keep_generating 'n' 'q' = true by decide)
    (show control_type allowed_types 'n' = true by decide)
    hl
    (show password_type_of (tolower 'n') = some PasswordType.NUMERIC by decide)
  refine ⟨_, hstep, rfl, ?_⟩
  show (generate_password r k PasswordType.NUMERIC (atoi s)).1.length = decimal_value s
  rw [generate_password_length, atoi_eq_decimal_value]

/-- C10 witness: the theorem applied at the length text `"008"`, whose
parsed value is 8 while its digit count is 3. -/
theorem C10_witness :
    control_length ['0', '0', '8'] MIN_PASSWORD_LENGTH MAX_PASSWORD_LENGTH = true ∧
    ∃ out : PasswordResponse × Nat,
      serverStep { type := 'n', length := ['0', '0', '8'] } (fun _ => 0) 0 = some out ∧
      out.1.request_error = false ∧
      out.1.password.length = decimal_value ['0', '0', '8'] :=
  C10_leading_zeros ['0', '0', '8'] (fun _ => 0) 0 (by decide) (by decide) (by decide)

end PwdGen
